import Mathlib

/-
  Verification development for the Living-Portrait scene-persistence core
  (src/living-portrait.jsx).

  The embedding models the React state variables of the component and the two
  IndexedDB object stores ("images" and "profiles") as a single record
  `AppState`; the event handlers (handleImageClick, the
  drag-move of handleSocketMouseDown, the Delete/Backspace branch of handleKeyDown, saveSlot,
  loadSlot, importProfiles, exportProfiles) become pure state transformers.
  Asynchronous store writes that may fail are modelled by explicit Boolean
  success flags; a `false` flag takes the corresponding `catch` branch of
  the source.  Coordinates are rationals (JS numbers used as fractions of
  the displayed image size).  The `flash(...)` status channel is the
  `statusMsg` field plus, for the async slot/import operations, a result
  discriminant with one constructor per distinct flash call site.
-/

namespace LivingPortrait

/-- A normalized coordinate pair, `{x, y}` in the source. -/
structure Point where
  x : ℚ
  y : ℚ
deriving DecidableEq, Repr

/-- A persisted scene profile as built by `saveSlot` (lines 188-194).
Fields are `Option`s because profiles that arrive through `importProfiles`
may lack any of them (the source reads them defensively:
`profile.eyeSockets || []`, `profile.locked || false`); `none` covers both
a missing field and an explicit `null`. -/
structure SceneProfile where
  slot : Option Int
  imageKey : Option String
  eyeSockets : Option (List Point)
  locked : Option Bool
  savedAt : Option String
deriving DecidableEq, Repr

/-- The profile registry: the single `allProfiles` object, a map from slot
key to profile.  Modelled as an association list with JavaScript-object
update semantics (overwrite in place, else append). -/
abbrev Registry := List (Nat × SceneProfile)

/-- Association-list lookup: first binding of the key wins (JS objects have
at most one binding per key). -/
def alGet {κ α : Type} [DecidableEq κ] : List (κ × α) → κ → Option α
  | [], _ => none
  | e :: es, k => if e.1 = k then some e.2 else alGet es k

/-- Association-list update with JS-object semantics: an existing key keeps
its position and gets the new value; a new key is appended.  Used both for
`{ ...profiles, [slot]: profile }` and for IndexedDB `put` (which
overwrites the value at a key). -/
def alSet {κ α : Type} [DecidableEq κ] : List (κ × α) → κ → α → List (κ × α)
  | [], k, v => [(k, v)]
  | e :: es, k, v => if e.1 = k then (k, v) :: es else e :: alSet es k v

/-- The component state: React `useState` variables of `LivingPortrait`
(lines 109-118) together with the two IndexedDB stores.  `imageData` is the
opaque data-URL payload (a non-empty string or `null`; `none` models
`null`).  `profStore` is the persisted `allProfiles` value (`none` if never
written); `profiles` is its in-memory mirror. -/
structure AppState where
  imageData : Option String
  eyeSockets : List Point
  locked : Bool
  profiles : Registry
  activeSlot : Option Nat
  statusMsg : String
  draggingIdx : Option Nat
  hoverSocket : Option Nat
  imgStore : List (String × String)
  profStore : Option Registry
deriving DecidableEq, Repr

/-- `Math.max(0, Math.min(1, q))` (lines 263-264). -/
def clamp01 (q : ℚ) : ℚ := max 0 (min 1 q)

/-- `handleImageClick` (lines 247-254): place a new eye socket.  The click
coordinates have already been divided by the container size by the input
collaborator; note the source appends them with NO clamping. -/
def handleImageClick (x y : ℚ) (st : AppState) : AppState :=
  if st.locked = true ∨ st.imageData = none then st
  else if st.draggingIdx ≠ none then st
  else { st with eyeSockets := st.eyeSockets ++ [⟨x, y⟩] }

/-- `handleSocketMouseDown` (lines 257-260): the drag-session gate.  When
locked it returns before registering any listener; otherwise it records the
dragged index. -/
def handleSocketMouseDown (idx : Nat) (st : AppState) : AppState :=
  if st.locked = true then st else { st with draggingIdx := some idx }

/-- The `handleMove` listener installed by `handleSocketMouseDown`
(lines 261-266): clamp each coordinate to `[0,1]` and replace the point at
the dragged index, leaving every other point alone. -/
def handleDragMove (idx : Nat) (cx cy : ℚ) (st : AppState) : AppState :=
  { st with
      eyeSockets :=
        st.eyeSockets.mapIdx fun i s =>
          if i = idx then ⟨clamp01 cx, clamp01 cy⟩ else s }

/-- The Delete/Backspace branch of `handleKeyDown` (lines 163-166): remove
the hovered socket, only when one is hovered and the scene is not locked. -/
def handleKeyDelete (st : AppState) : AppState :=
  match st.hoverSocket with
  | none => st
  | some h =>
      if st.locked = true then st
      else { st with eyeSockets := st.eyeSockets.eraseIdx h, hoverSocket := none }

/-- The lock toggle (`setLocked` via the Locked button, line 435). -/
def setLocked (b : Bool) (st : AppState) : AppState := { st with locked := b }

/-- Result discriminant for `saveSlot`: one constructor per flash call
site (`"No image loaded"`, the `"Save failed"` of the catch, success). -/
inductive SaveResult where
  | noImage
  | saveFailed
  | saved
deriving DecidableEq, Repr

/-- Result discriminant for `loadSlot`: one constructor per flash call
site (`"Slot N is empty"`, the `"Load failed"` of the catch, `"Image missing
for slot N"`, success). -/
inductive LoadResult where
  | emptySlot
  | loadFailed
  | imageMissing
  | loaded
deriving DecidableEq, Repr

/-- Result discriminant for `importProfiles` (`"Invalid profile file"` in
the catch, success). -/
inductive ImportResult where
  | invalidFile
  | imported
deriving DecidableEq, Repr

/-- The deterministic image-blob key, `` `img_slot_${slot}` ``. -/
def imgKey (slot : Nat) : String := "img_slot_" ++ toString slot

/-- `saveSlot` (lines 183-206).  `now` is the `new Date().toISOString()`
clock reading; `imgPutOk` / `profPutOk` say whether the two `dbPut` calls
succeed (a `false` one rejects, taking the catch branch; a failed IndexedDB
transaction commits nothing for that put). -/
def saveSlot (now : String) (imgPutOk profPutOk : Bool) (slot : Nat)
    (st : AppState) : AppState × SaveResult :=
  match st.imageData with
  | none => ({ st with statusMsg := "No image loaded" }, .noImage)
  | some img =>
    let profile : SceneProfile :=
      { slot := some (slot : Int)
        imageKey := some (imgKey slot)
        eyeSockets := some st.eyeSockets
        locked := some st.locked
        savedAt := some now }
    if imgPutOk = false then
      ({ st with statusMsg := "Save failed" }, .saveFailed)
    else
      let st1 := { st with imgStore := alSet st.imgStore (imgKey slot) img }
      if profPutOk = false then
        ({ st1 with statusMsg := "Save failed" }, .saveFailed)
      else
        let updated := alSet st.profiles slot profile
        ({ st1 with
            profStore := some updated
            profiles := updated
            activeSlot := some slot
            statusMsg := "Scene saved to slot " ++ toString slot }, .saved)

/-- `loadSlot` (lines 209-230).  `getOk` says whether the `dbGet` of the
image succeeds (a `false` one rejects, taking the catch branch).  The
profile lookup reads the in-memory `profiles`; a profile whose `imageKey`
is missing makes `dbGet(IMG_STORE, undefined)` throw, which also lands in
the catch branch. -/
def loadSlot (getOk : Bool) (slot : Nat) (st : AppState) :
    AppState × LoadResult :=
  match alGet st.profiles slot with
  | none => ({ st with statusMsg := "Slot " ++ toString slot ++ " is empty" }, .emptySlot)
  | some profile =>
    if getOk = false then ({ st with statusMsg := "Load failed" }, .loadFailed)
    else
      match profile.imageKey with
      | none => ({ st with statusMsg := "Load failed" }, .loadFailed)
      | some key =>
        match alGet st.imgStore key with
        | none =>
            ({ st with statusMsg := "Image missing for slot " ++ toString slot },
             .imageMissing)
        | some img =>
            ({ st with
                imageData := some img
                eyeSockets := profile.eyeSockets.getD []
                locked := profile.locked.getD false
                activeSlot := some slot
                statusMsg := "Loaded slot " ++ toString slot }, .loaded)

/-- `importProfiles` (lines 312-327).  `doc` is the outcome of
`JSON.parse` on the chosen file (`none` = a parse error, landing in the
catch branch); `putOk` is the `dbPut` of the parsed document (its failure
also lands in the catch branch and leaves the in-memory registry alone).
Nothing about the shape of the document is ever inspected: a parsed document is
stored and adopted verbatim. -/
def importProfiles (doc : Option Registry) (putOk : Bool) (st : AppState) :
    AppState × ImportResult :=
  match doc with
  | none => ({ st with statusMsg := "Invalid profile file" }, .invalidFile)
  | some data =>
    if putOk = false then
      ({ st with statusMsg := "Invalid profile file" }, .invalidFile)
    else
      ({ st with
          profStore := some data
          profiles := data
          statusMsg := "Profiles imported" }, .imported)

/-- A JSON value, for the portable export/import document.  `num` carries a
rational, the exact value of the JS number. -/
inductive Json where
  | null
  | bool (b : Bool)
  | num (q : ℚ)
  | str (s : String)
  | arr (xs : List Json)
  | obj (fields : List (String × Json))
deriving Repr

/-- A field list with the entry for an `Option` field: `JSON.stringify`
drops fields holding `undefined`, so a `none` field contributes nothing. -/
def optField (k : String) : Option Json → List (String × Json)
  | none => []
  | some j => [(k, j)]

/-- JSON encoding of a point, `{"x": ..., "y": ...}`. -/
def pointToJson (p : Point) : Json := .obj [("x", .num p.x), ("y", .num p.y)]

/-- JSON encoding of a point list. -/
def pointsToJson (l : List Point) : Json := .arr (l.map pointToJson)

/-- JSON encoding of a profile, in the field order `saveSlot` writes
(lines 188-194): slot, imageKey, eyeSockets, locked, savedAt. -/
def profileToJson (p : SceneProfile) : Json :=
  .obj (optField "slot" (p.slot.map fun i => .num (i : ℚ))
        ++ optField "imageKey" (p.imageKey.map .str)
        ++ optField "eyeSockets" (p.eyeSockets.map pointsToJson)
        ++ optField "locked" (p.locked.map .bool)
        ++ optField "savedAt" (p.savedAt.map .str))

/-- JSON encoding of the registry: the persisted `allProfiles` object,
with the numeric slot keys stringified as JS object keys are. -/
def registryToJson (r : Registry) : Json :=
  .obj (r.map fun e => (toString e.1, profileToJson e.2))

/-- `exportProfiles` (lines 299-309) serializes the in-memory registry with
`JSON.stringify(profiles, null, 2)`; this is the JSON value the exported
document denotes. -/
def exportAll (r : Registry) : Json := registryToJson r

/-- Read an integer back from a JSON number (exact, no fraction). -/
def jsonToInt : Json → Option Int
  | .num q => if q.den = 1 then some q.num else none
  | _ => none

/-- Read a rational back from a JSON number. -/
def jsonToRat : Json → Option ℚ
  | .num q => some q
  | _ => none

/-- Read a string back. -/
def jsonToStr : Json → Option String
  | .str s => some s
  | _ => none

/-- Read a Boolean back. -/
def jsonToBool : Json → Option Bool
  | .bool b => some b
  | _ => none

/-- Read a point back from `{"x": ..., "y": ...}`. -/
def jsonToPoint : Json → Option Point
  | .obj fs => do
      let xj ← alGet fs "x"
      let x ← jsonToRat xj
      let yj ← alGet fs "y"
      let y ← jsonToRat yj
      pure ⟨x, y⟩
  | _ => none

/-- Read a list of points back, element by element. -/
def jsonToPointList : List Json → Option (List Point)
  | [] => some []
  | j :: js => do
      let p ← jsonToPoint j
      let ps ← jsonToPointList js
      pure (p :: ps)

/-- Read a point list back. -/
def jsonToPoints : Json → Option (List Point)
  | .arr xs => jsonToPointList xs
  | _ => none

/-- Decode one optional field: a missing field reads back as `none`, a
present field must decode. -/
def decodeField {α : Type} (fs : List (String × Json)) (k : String)
    (dec : Json → Option α) : Option (Option α) :=
  match alGet fs k with
  | none => some none
  | some j => (dec j).map some

/-- Decode a profile from its document shape. -/
def jsonToProfile : Json → Option SceneProfile
  | .obj fs => do
      let s ← decodeField fs "slot" jsonToInt
      let ik ← decodeField fs "imageKey" jsonToStr
      let es ← decodeField fs "eyeSockets" jsonToPoints
      let lk ← decodeField fs "locked" jsonToBool
      let sa ← decodeField fs "savedAt" jsonToStr
      pure ⟨s, ik, es, lk, sa⟩
  | _ => none

/-- Parse a run of decimal digits (most significant first). -/
def parseNatAux : List Char → Nat → Option Nat
  | [], acc => some acc
  | c :: cs, acc =>
      if c.isDigit then parseNatAux cs (acc * 10 + (c.toNat - 48)) else none

/-- Parse a non-empty all-digit string as a natural number (the slot keys
of the document are the stringified slot numbers). -/
def parseNatKey (s : String) : Option Nat :=
  match s.data with
  | [] => none
  | cs => parseNatAux cs 0

/-- Decode the entry list of the registry object. -/
def jsonToRegistryEntries : List (String × Json) → Option Registry
  | [] => some []
  | e :: es => do
      let k ← parseNatKey e.1
      let p ← jsonToProfile e.2
      let rest ← jsonToRegistryEntries es
      pure ((k, p) :: rest)

/-- Decode a registry from the export document: numeric-string keys and
profile values. -/
def jsonToRegistry : Json → Option Registry
  | .obj fs => jsonToRegistryEntries fs
  | _ => none

/-- Field lookup on a JSON object (anything else has no fields). -/
def jsonField (j : Json) (k : String) : Option Json :=
  match j with
  | .obj fs => alGet fs k
  | _ => none

/-! Helper lemmas -/

theorem alGet_alSet_self {κ α : Type} [DecidableEq κ] (l : List (κ × α))
    (k : κ) (v : α) : alGet (alSet l k v) k = some v := by
  induction l with
  | nil => simp [alSet, alGet]
  | cons e es ih => by_cases h : e.1 = k <;> simp [alSet, alGet, h, ih]

theorem clamp01_nonneg (q : ℚ) : 0 ≤ clamp01 q := le_max_left 0 _

theorem clamp01_le_one (q : ℚ) : clamp01 q ≤ 1 :=
  max_le zero_le_one (min_le_left 1 q)

theorem clamp01_of_mem (q : ℚ) (h0 : 0 ≤ q) (h1 : q ≤ 1) : clamp01 q = q := by
  simp [clamp01, min_eq_right h1, max_eq_right h0]

theorem mapIdx_ite_eq_set (l : List Point) (idx : Nat) (v : Point) :
    (l.mapIdx fun i s => if i = idx then v else s) = l.set idx v := by
  apply List.ext_getElem
  · simp
  · intro i h1 h2
    have hi : i < l.length := by simpa using h1
    have := List.get_mapIdx l (fun i s => if i = idx then v else s) i hi
    simp only [List.get_eq_getElem] at this
    rw [this, List.getElem_set]
    by_cases h : i = idx <;> simp [h, Ne.symm]

theorem jsonToPoint_pointToJson (p : Point) :
    jsonToPoint (pointToJson p) = some p := rfl

theorem jsonToPointList_map (l : List Point) :
    jsonToPointList (l.map pointToJson) = some l := by
  induction l with
  | nil => rfl
  | cons p ps ih => simp [jsonToPointList, jsonToPoint_pointToJson, ih]

theorem jsonToPoints_pointsToJson (l : List Point) :
    jsonToPoints (pointsToJson l) = some l := jsonToPointList_map l

theorem jsonToInt_intCast (i : Int) : jsonToInt (.num (i : ℚ)) = some i := by
  simp [jsonToInt, Rat.den_intCast, Rat.num_intCast]

theorem jsonToProfile_profileToJson (p : SceneProfile) :
    jsonToProfile (profileToJson p) = some p := by
  obtain ⟨s, ik, es, lk, sa⟩ := p
  cases s <;> cases ik <;> cases es <;> cases lk <;> cases sa <;>
    simp [profileToJson, jsonToProfile, optField, decodeField, alGet,
      jsonToInt_intCast, jsonToStr, jsonToBool, jsonToPoints_pointsToJson]

theorem parseNatKey_toString_of_le_six (k : Nat) (h1 : 1 ≤ k) (h6 : k ≤ 6) :
    parseNatKey (toString k) = some k := by
  interval_cases k <;> decide

theorem jsonToRegistryEntries_map (r : Registry)
    (h : ∀ e ∈ r, 1 ≤ e.1 ∧ e.1 ≤ 6) :
    jsonToRegistryEntries (r.map fun e => (toString e.1, profileToJson e.2)) =
      some r := by
  induction r with
  | nil => rfl
  | cons e es ih =>
      have hk := h e (List.mem_cons_self e es)
      have hes := ih fun x hx => h x (List.mem_cons_of_mem e hx)
      simp [jsonToRegistryEntries, parseNatKey_toString_of_le_six e.1 hk.1 hk.2,
        jsonToProfile_profileToJson, hes]

theorem loadSlot_of_empty (slot : Nat) (st : AppState)
    (hp : alGet st.profiles slot = none) :
    loadSlot true slot st =
      ({ st with statusMsg := "Slot " ++ toString slot ++ " is empty" },
       .emptySlot) := by
  simp [loadSlot, hp]

theorem loadSlot_of_missing (slot : Nat) (st : AppState) (p : SceneProfile)
    (k : String) (hp : alGet st.profiles slot = some p)
    (hik : p.imageKey = some k) (him : alGet st.imgStore k = none) :
    loadSlot true slot st =
      ({ st with statusMsg := "Image missing for slot " ++ toString slot },
       .imageMissing) := by
  simp [loadSlot, hp, hik, him]

theorem loadSlot_of_found (slot : Nat) (st : AppState) (p : SceneProfile)
    (k img : String) (hp : alGet st.profiles slot = some p)
    (hik : p.imageKey = some k) (him : alGet st.imgStore k = some img) :
    loadSlot true slot st =
      ({ st with
          imageData := some img
          eyeSockets := p.eyeSockets.getD []
          locked := p.locked.getD false
          activeSlot := some slot
          statusMsg := "Loaded slot " ++ toString slot }, .loaded) := by
  simp [loadSlot, hp, hik, him]

/-! Concrete states used by witnesses and counterexamples -/

/-- A fresh editing state with an image loaded and nothing else. -/
def sampleState : AppState :=
  { imageData := some "data:image/png;base64,AAAA"
    eyeSockets := []
    locked := false
    profiles := []
    activeSlot := none
    statusMsg := ""
    draggingIdx := none
    hoverSocket := none
    imgStore := []
    profStore := none }

/-- The editing state of the scenario in section 8 of the spec: two eye
sockets placed and the scene locked. -/
def sceneA : AppState :=
  { sampleState with
      eyeSockets := [⟨35/100, 42/100⟩, ⟨65/100, 42/100⟩]
      locked := true }

/-- A well-formed profile occupying slot 1. -/
def profile1 : SceneProfile :=
  { slot := some 1
    imageKey := some "img_slot_1"
    eyeSockets := some []
    locked := some false
    savedAt := some "2025-02-05T12:00:00.000Z" }

/-- A registry holding only `profile1`. -/
def preRegistry : Registry := [(1, profile1)]

/-- A state whose persisted and in-memory registry is `preRegistry` and
whose image store is empty (so slot 1 dangles). -/
def stWithReg : AppState :=
  { sampleState with profiles := preRegistry, profStore := some preRegistry }

/-- A parseable but shape-invalid document: slot key 99 is outside 1..6
and every required profile field is missing. -/
def malformedDoc : Registry :=
  [(99, { slot := none, imageKey := none, eyeSockets := none,
          locked := none, savedAt := none })]

/-- A state with no image loaded. -/
def noImgState : AppState := { sampleState with imageData := none }

/-! Claim theorems -/

/-- C1 (counterexample): placing a point at x = 2 on an unlocked scene with
an image stores the raw pair (2, 1/2) in the point list even though its
clamp would be (1, 1/2) — the raw value, not the clamped one, persists
outside [0,1]. -/
theorem c1_placePoint_raw_counterexample :
    (handleImageClick 2 (1/2) sampleState).eyeSockets = [⟨2, 1/2⟩] ∧
    clamp01 2 = 1 ∧ ¬ (2 : ℚ) ≤ 1 := by
  refine ⟨rfl, ?_, by norm_num⟩
  simp [clamp01]

/-- C1 (amended): only the drag mutation clamps.  A drag move stores
exactly the componentwise clamp of its input to [0,1] (replacing only the
dragged index), and the clamp lies in [0,1] and is the identity on inputs
already in range; click placement, by contrast, appends the raw input with
no clamping. -/
theorem c1_clamp_amended (st : AppState) (idx : Nat) (x y cx cy : ℚ)
    (hlock : st.locked = false) (himg : st.imageData ≠ none)
    (hdrag : st.draggingIdx = none) :
    (handleDragMove idx cx cy st).eyeSockets =
      st.eyeSockets.set idx ⟨clamp01 cx, clamp01 cy⟩ ∧
    0 ≤ clamp01 cx ∧ clamp01 cx ≤ 1 ∧ 0 ≤ clamp01 cy ∧ clamp01 cy ≤ 1 ∧
    (0 ≤ cx → cx ≤ 1 → clamp01 cx = cx) ∧
    (handleImageClick x y st).eyeSockets = st.eyeSockets ++ [⟨x, y⟩] := by
  refine ⟨?_, clamp01_nonneg cx, clamp01_le_one cx, clamp01_nonneg cy,
    clamp01_le_one cy, clamp01_of_mem cx, ?_⟩
  · simpa [handleDragMove] using
      mapIdx_ite_eq_set st.eyeSockets idx ⟨clamp01 cx, clamp01 cy⟩
  · simp [handleImageClick, hlock, himg, hdrag]

/-- C1 witness: the amended statement at a concrete unlocked state. -/
theorem c1_clamp_amended_witness :
    (sampleState.locked = false ∧ sampleState.imageData ≠ none ∧
      sampleState.draggingIdx = none) ∧
    ((handleDragMove 0 3 (-1) sampleState).eyeSockets =
        sampleState.eyeSockets.set 0 ⟨clamp01 3, clamp01 (-1)⟩ ∧
      0 ≤ clamp01 3 ∧ clamp01 3 ≤ 1 ∧
      0 ≤ clamp01 (-1) ∧ clamp01 (-1) ≤ 1 ∧
      (0 ≤ (3 : ℚ) → (3 : ℚ) ≤ 1 → clamp01 3 = 3) ∧
      (handleImageClick (1/4) (3/4) sampleState).eyeSockets =
        sampleState.eyeSockets ++ [⟨1/4, 3/4⟩]) :=
  ⟨⟨rfl, by simp [sampleState], rfl⟩,
   c1_clamp_amended sampleState 0 (1/4) (3/4) 3 (-1) rfl (by simp [sampleState]) rfl⟩

/-- C2: saving a scene to a slot and loading that slot back yields the
saved point list and lock flag verbatim, the saved image, and the slot as
the active slot. -/
theorem c2_save_load_roundtrip (now : String) (slot : Nat) (st : AppState)
    (img : String) (himg : st.imageData = some img)
    (_hlo : 1 ≤ slot) (_hhi : slot ≤ 6) :
    (loadSlot true slot (saveSlot now true true slot st).1).2 = .loaded ∧
    (loadSlot true slot (saveSlot now true true slot st).1).1.eyeSockets =
      st.eyeSockets ∧
    (loadSlot true slot (saveSlot now true true slot st).1).1.locked =
      st.locked ∧
    (loadSlot true slot (saveSlot now true true slot st).1).1.activeSlot =
      some slot ∧
    (loadSlot true slot (saveSlot now true true slot st).1).1.imageData =
      some img := by
  simp [saveSlot, himg, loadSlot, alGet_alSet_self]

/-- C2 witness: the round trip at slot 3 for the two-point locked scene. -/
theorem c2_save_load_roundtrip_witness :
    sceneA.imageData = some "data:image/png;base64,AAAA" ∧
    1 ≤ 3 ∧ 3 ≤ 6 ∧
    ((loadSlot true 3 (saveSlot "t0" true true 3 sceneA).1).2 = .loaded ∧
     (loadSlot true 3 (saveSlot "t0" true true 3 sceneA).1).1.eyeSockets =
       sceneA.eyeSockets ∧
     (loadSlot true 3 (saveSlot "t0" true true 3 sceneA).1).1.locked =
       sceneA.locked ∧
     (loadSlot true 3 (saveSlot "t0" true true 3 sceneA).1).1.activeSlot =
       some 3 ∧
     (loadSlot true 3 (saveSlot "t0" true true 3 sceneA).1).1.imageData =
       some "data:image/png;base64,AAAA") :=
  ⟨rfl, by decide, by decide,
   c2_save_load_roundtrip "t0" 3 sceneA "data:image/png;base64,AAAA" rfl
     (by decide) (by decide)⟩

/-- C3 (counterexample): a parseable document whose only slot key is 99
(outside 1..6) and whose profile is missing every required field is
imported successfully and replaces both the in-memory and the persisted
registry — it is not rejected with the malformed-document error and the
existing registry does not survive. -/
theorem c3_import_no_validation_counterexample :
    (importProfiles (some malformedDoc) true stWithReg).2 = .imported ∧
    (importProfiles (some malformedDoc) true stWithReg).1.profiles =
      malformedDoc ∧
    (importProfiles (some malformedDoc) true stWithReg).1.profStore =
      some malformedDoc ∧
    malformedDoc ≠ stWithReg.profiles := by
  refine ⟨rfl, rfl, rfl, by decide⟩

/-- C3 (amended): importProfiles performs no shape validation at all.  A
document that fails to parse — or whose store write fails — is rejected
with the invalid-file error, leaving the in-memory and persisted registry
untouched; but every successfully parsed document, whatever its shape,
replaces the registry wholesale. -/
theorem c3_import_amended (st : AppState) (putOk : Bool) (doc : Registry) :
    ((importProfiles none putOk st).1.profiles = st.profiles ∧
     (importProfiles none putOk st).1.profStore = st.profStore ∧
     (importProfiles none putOk st).2 = .invalidFile) ∧
    ((importProfiles (some doc) false st).1.profiles = st.profiles ∧
     (importProfiles (some doc) false st).1.profStore = st.profStore ∧
     (importProfiles (some doc) false st).2 = .invalidFile) ∧
    ((importProfiles (some doc) true st).1.profiles = doc ∧
     (importProfiles (some doc) true st).1.profStore = some doc ∧
     (importProfiles (some doc) true st).2 = .imported) :=
  ⟨⟨rfl, rfl, rfl⟩, ⟨rfl, rfl, rfl⟩, ⟨rfl, rfl, rfl⟩⟩

/-- C4 (counterexample): saving to slot 7, outside the valid range 1..6,
does not fail — with an image loaded it succeeds and writes a registry
entry for slot 7 (there is no slot-range check in saveSlot). -/
theorem c4_invalid_slot_counterexample :
    (saveSlot "t7" true true 7 sampleState).2 = .saved ∧
    alGet (saveSlot "t7" true true 7 sampleState).1.profiles 7 =
      some { slot := some 7, imageKey := some "img_slot_7",
             eyeSockets := some [], locked := some false,
             savedAt := some "t7" } := by
  exact ⟨rfl, rfl⟩

/-- C4 (amended): save fails with the no-image error whenever the image
handle is null, changing nothing but the status message — no store write,
no scene or registry change; but save performs no slot-range validation:
with an image loaded it succeeds for any slot number whatsoever (callers
only ever invoke it with keys 1..6). -/
theorem c4_save_errors_amended (now : String) (slot : Nat) (st : AppState) :
    (∀ imgOk profOk : Bool, st.imageData = none →
        saveSlot now imgOk profOk slot st =
          ({ st with statusMsg := "No image loaded" }, .noImage)) ∧
    (∀ img : String, st.imageData = some img →
        (saveSlot now true true slot st).2 = .saved) := by
  constructor
  · intro imgOk profOk h
    simp [saveSlot, h]
  · intro img h
    simp [saveSlot, h]

/-- C4 witness: the amended statement applied at slot 9 to a state with no
image and to a state with an image. -/
theorem c4_save_errors_amended_witness :
    noImgState.imageData = none ∧
    saveSlot "t9" true true 9 noImgState =
      ({ noImgState with statusMsg := "No image loaded" }, .noImage) ∧
    sampleState.imageData = some "data:image/png;base64,AAAA" ∧
    (saveSlot "t9" true true 9 sampleState).2 = .saved :=
  ⟨rfl, (c4_save_errors_amended "t9" 9 noImgState).1 true true rfl,
   rfl, (c4_save_errors_amended "t9" 9 sampleState).2
     "data:image/png;base64,AAAA" rfl⟩

/-- C5: with the store read succeeding, load reports the empty-slot error
exactly when no profile exists for the slot, and the image-missing error —
a distinct reported outcome — exactly when a profile exists whose image
key resolves to no blob in the image store; in both error cases the
editing state (image, points, lock flag, active slot) is untouched. -/
theorem c5_load_error_taxonomy (slot : Nat) (st : AppState)
    (hkey : ∀ p, alGet st.profiles slot = some p → p.imageKey ≠ none) :
    ((loadSlot true slot st).2 = .emptySlot ↔
      alGet st.profiles slot = none) ∧
    ((loadSlot true slot st).2 = .imageMissing ↔
      ∃ p k, alGet st.profiles slot = some p ∧ p.imageKey = some k ∧
        alGet st.imgStore k = none) ∧
    ((loadSlot true slot st).2 = .emptySlot ∨
        (loadSlot true slot st).2 = .imageMissing →
      (loadSlot true slot st).1.imageData = st.imageData ∧
      (loadSlot true slot st).1.eyeSockets = st.eyeSockets ∧
      (loadSlot true slot st).1.locked = st.locked ∧
      (loadSlot true slot st).1.activeSlot = st.activeSlot) := by
  cases hp : alGet st.profiles slot with
  | none =>
      rw [loadSlot_of_empty slot st hp]
      simp [hp]
  | some p =>
      have hnk := hkey p hp
      cases hik : p.imageKey with
      | none => exact absurd hik hnk
      | some k =>
          cases him : alGet st.imgStore k with
          | none =>
              rw [loadSlot_of_missing slot st p k hp hik him]
              simp [hp, hik, him]
          | some img =>
              rw [loadSlot_of_found slot st p k img hp hik him]
              simp [hp, hik, him]

/-- C5 witness: the taxonomy at slot 1 of a state whose registry holds a
profile for slot 1 but whose image store is empty (a dangling slot). -/
theorem c5_load_error_taxonomy_witness :
    (∀ p, alGet stWithReg.profiles 1 = some p → p.imageKey ≠ none) ∧
    (((loadSlot true 1 stWithReg).2 = .emptySlot ↔
        alGet stWithReg.profiles 1 = none) ∧
     ((loadSlot true 1 stWithReg).2 = .imageMissing ↔
        ∃ p k, alGet stWithReg.profiles 1 = some p ∧ p.imageKey = some k ∧
          alGet stWithReg.imgStore k = none) ∧
     ((loadSlot true 1 stWithReg).2 = .emptySlot ∨
          (loadSlot true 1 stWithReg).2 = .imageMissing →
        (loadSlot true 1 stWithReg).1.imageData = stWithReg.imageData ∧
        (loadSlot true 1 stWithReg).1.eyeSockets = stWithReg.eyeSockets ∧
        (loadSlot true 1 stWithReg).1.locked = stWithReg.locked ∧
        (loadSlot true 1 stWithReg).1.activeSlot = stWithReg.activeSlot)) := by
  have hkey : ∀ p, alGet stWithReg.profiles 1 = some p → p.imageKey ≠ none := by
    intro p hp
    injection hp with h
    rw [← h]
    decide
  exact ⟨hkey, c5_load_error_taxonomy 1 stWithReg hkey⟩

/-- C6: if the image-blob write fails, save aborts in the catch branch
before the registry write: neither store namespace, nor the in-memory
registry, nor any editing state changes — a failed image write can never
create a registry entry pointing at a missing image.  (It reports either
the no-image error or the save-failed error.) -/
theorem c6_img_write_failure_aborts (now : String) (profOk : Bool)
    (slot : Nat) (st : AppState) :
    (saveSlot now false profOk slot st).1.profiles = st.profiles ∧
    (saveSlot now false profOk slot st).1.profStore = st.profStore ∧
    (saveSlot now false profOk slot st).1.imgStore = st.imgStore ∧
    (saveSlot now false profOk slot st).1.imageData = st.imageData ∧
    (saveSlot now false profOk slot st).1.eyeSockets = st.eyeSockets ∧
    (saveSlot now false profOk slot st).1.locked = st.locked ∧
    (saveSlot now false profOk slot st).1.activeSlot = st.activeSlot ∧
    ((saveSlot now false profOk slot st).2 = .noImage ∨
      (saveSlot now false profOk slot st).2 = .saveFailed) := by
  cases h : st.imageData <;> simp [saveSlot, h]

/-- A fully-populated profile for slot `n`, used to build a registry with
all six slots occupied. -/
def mkProfile (n : Nat) : SceneProfile :=
  { slot := some (n : Int)
    imageKey := some ("img_slot_" ++ toString n)
    eyeSockets := some [⟨7/20, 21/50⟩, ⟨13/20, 21/50⟩]
    locked := some true
    savedAt := some "2025-02-05T12:00:00.000Z" }

/-- A registry with all six slots occupied. -/
def registry6 : Registry :=
  [(1, mkProfile 1), (2, mkProfile 2), (3, mkProfile 3),
   (4, mkProfile 4), (5, mkProfile 5), (6, mkProfile 6)]

/-- C7: decoding the JSON document produced by exporting any registry
whose slot keys are valid (1..6) — in particular registries with 0, 1 or 6
occupied slots — yields exactly the original registry. -/
theorem c7_export_decode_roundtrip (r : Registry)
    (h : ∀ e ∈ r, 1 ≤ e.1 ∧ e.1 ≤ 6) :
    jsonToRegistry (exportAll r) = some r :=
  jsonToRegistryEntries_map r h

/-- C7 witness: the round trip on a registry with all 6 slots occupied. -/
theorem c7_export_decode_roundtrip_witness :
    (∀ e ∈ registry6, 1 ≤ e.1 ∧ e.1 ≤ 6) ∧
    jsonToRegistry (exportAll registry6) = some registry6 :=
  ⟨by decide, c7_export_decode_roundtrip registry6 (by decide)⟩

/-- A locked scene with one placed point, hovered, used to show that the
lock-gated mutations are silent. -/
def lockedScene : AppState :=
  { sampleState with
      locked := true
      eyeSockets := [⟨1/4, 1/4⟩]
      hoverSocket := some 0 }

/-- C8 (counterexample): on a locked scene, place, drag-start and delete
return with the state bit-for-bit identical — including the status-message
channel, which stays empty — so no failure is reported to the caller: the
rejected call is observationally indistinguishable from never calling. -/
theorem c8_silent_noop_counterexample :
    handleImageClick (1/2) (1/2) lockedScene = lockedScene ∧
    handleSocketMouseDown 0 lockedScene = lockedScene ∧
    handleKeyDelete lockedScene = lockedScene ∧
    lockedScene.statusMsg = "" :=
  ⟨rfl, rfl, rfl, rfl⟩

/-- C8 (amended): after locking, place, drag-start and delete leave the
whole state — point list, image handle and status channel included —
unchanged, failing silently as no-ops (in particular nothing is thrown and
no failure is reported). -/
theorem c8_locked_noop_amended (st : AppState) (x y : ℚ) (idx : Nat) :
    handleImageClick x y (setLocked true st) = setLocked true st ∧
    handleSocketMouseDown idx (setLocked true st) = setLocked true st ∧
    handleKeyDelete (setLocked true st) = setLocked true st := by
  refine ⟨?_, ?_, ?_⟩
  · simp [handleImageClick, setLocked]
  · simp [handleSocketMouseDown, setLocked]
  · cases h : st.hoverSocket <;> simp [handleKeyDelete, setLocked, h]

/-- A scene holding a point outside [0,1] (reachable via placement, which
does not clamp). -/
def outOfRangeScene : AppState :=
  { sampleState with eyeSockets := [⟨2, 1/2⟩] }

/-- The profile a save of `outOfRangeScene` to slot 1 writes. -/
def savedProfC9 : SceneProfile :=
  { slot := some 1
    imageKey := some "img_slot_1"
    eyeSockets := some [⟨2, 1/2⟩]
    locked := some false
    savedAt := some "tC9" }

/-- C9 (counterexample): the registry entry written by a successful save
carries its point list under the field name "eyeSockets", not "points" —
the encoded profile has no "points" field at all — and the stored
coordinates need not lie in [0,1] (here x = 2). -/
theorem c9_field_name_counterexample :
    alGet (saveSlot "tC9" true true 1 outOfRangeScene).1.profiles 1 =
      some savedProfC9 ∧
    jsonField (profileToJson savedProfC9) "points" = none ∧
    jsonField (profileToJson savedProfC9) "eyeSockets" =
      some (.arr [.obj [("x", .num 2), ("y", .num (1/2))]]) ∧
    ¬ (2 : ℚ) ≤ 1 :=
  ⟨rfl, rfl, rfl, by norm_num⟩

/-- C9 (amended): every registry entry written by a successful save to a
slot in 1..6 has exactly the persisted shape slot (the integer slot,
in 1..6), imageKey = "img_slot_" followed by the slot, a field named
"eyeSockets" holding the scene point list, locked (Boolean) and savedAt
(the clock timestamp string), in that order. -/
theorem c9_saved_profile_shape_amended (now : String) (slot : Nat)
    (st : AppState) (img : String) (himg : st.imageData = some img)
    (h1 : 1 ≤ slot) (h6 : slot ≤ 6) :
    ∃ p, alGet (saveSlot now true true slot st).1.profiles slot = some p ∧
      profileToJson p = .obj
        [("slot", .num (slot : ℚ)),
         ("imageKey", .str ("img_slot_" ++ toString slot)),
         ("eyeSockets", .arr (st.eyeSockets.map pointToJson)),
         ("locked", .bool st.locked),
         ("savedAt", .str now)] ∧
      (1 : ℚ) ≤ (slot : ℚ) ∧ (slot : ℚ) ≤ 6 := by
  refine ⟨{ slot := some (slot : Int), imageKey := some (imgKey slot),
            eyeSockets := some st.eyeSockets, locked := some st.locked,
            savedAt := some now }, ?_, ?_, ?_, ?_⟩
  · simp [saveSlot, himg, alGet_alSet_self]
  · simp [profileToJson, optField, pointsToJson, imgKey]
  · exact_mod_cast h1
  · exact_mod_cast h6

/-- C9 witness: the amended shape for a save of the fresh sample state to
slot 2. -/
theorem c9_saved_profile_shape_amended_witness :
    sampleState.imageData = some "data:image/png;base64,AAAA" ∧
    1 ≤ 2 ∧ 2 ≤ 6 ∧
    (∃ p, alGet (saveSlot "tW9" true true 2 sampleState).1.profiles 2 =
        some p ∧
      profileToJson p = .obj
        [("slot", .num ((2 : Nat) : ℚ)),
         ("imageKey", .str ("img_slot_" ++ toString (2 : Nat))),
         ("eyeSockets", .arr (sampleState.eyeSockets.map pointToJson)),
         ("locked", .bool sampleState.locked),
         ("savedAt", .str "tW9")] ∧
      (1 : ℚ) ≤ ((2 : Nat) : ℚ) ∧ ((2 : Nat) : ℚ) ≤ 6) :=
  ⟨rfl, by decide, by decide,
   c9_saved_profile_shape_amended "tW9" 2 sampleState
     "data:image/png;base64,AAAA" rfl (by decide) (by decide)⟩

/-- A profile with no point-list field and no lock field (as import can
produce), referencing a present image blob. -/
def bareProfile : SceneProfile :=
  { slot := none
    imageKey := some "imgX"
    eyeSockets := none
    locked := none
    savedAt := none }

/-- A state whose registry holds `bareProfile` at slot 4 and whose image
store resolves its key. -/
def importedState : AppState :=
  { sampleState with
      profiles := [(4, bareProfile)]
      imgStore := [("imgX", "data:imported")] }

/-- C10: a successful load of a profile whose point-list or lock fields
are missing (or null) does not crash: it substitutes the empty point list
and an unlocked flag for the missing fields and otherwise loads normally. -/
theorem c10_load_missing_fields_defaults (slot : Nat) (st : AppState)
    (p : SceneProfile) (k img : String)
    (hp : alGet st.profiles slot = some p) (hik : p.imageKey = some k)
    (him : alGet st.imgStore k = some img) :
    (loadSlot true slot st).2 = .loaded ∧
    (loadSlot true slot st).1.eyeSockets = p.eyeSockets.getD [] ∧
    (loadSlot true slot st).1.locked = p.locked.getD false ∧
    (p.eyeSockets = none → (loadSlot true slot st).1.eyeSockets = []) ∧
    (p.locked = none → (loadSlot true slot st).1.locked = false) ∧
    (loadSlot true slot st).1.imageData = some img ∧
    (loadSlot true slot st).1.activeSlot = some slot := by
  rw [loadSlot_of_found slot st p k img hp hik him]
  refine ⟨rfl, rfl, rfl, ?_, ?_, rfl, rfl⟩
  · intro h
    rw [h]
    rfl
  · intro h
    rw [h]
    rfl

/-- C10 witness: loading the field-less imported profile at slot 4. -/
theorem c10_load_missing_fields_defaults_witness :
    alGet importedState.profiles 4 = some bareProfile ∧
    bareProfile.imageKey = some "imgX" ∧
    alGet importedState.imgStore "imgX" = some "data:imported" ∧
    ((loadSlot true 4 importedState).2 = .loaded ∧
     (loadSlot true 4 importedState).1.eyeSockets =
       bareProfile.eyeSockets.getD [] ∧
     (loadSlot true 4 importedState).1.locked =
       bareProfile.locked.getD false ∧
     (bareProfile.eyeSockets = none →
       (loadSlot true 4 importedState).1.eyeSockets = []) ∧
     (bareProfile.locked = none →
       (loadSlot true 4 importedState).1.locked = false) ∧
     (loadSlot true 4 importedState).1.imageData = some "data:imported" ∧
     (loadSlot true 4 importedState).1.activeSlot = some 4) :=
  ⟨rfl, rfl, rfl,
   c10_load_missing_fields_defaults 4 importedState bareProfile "imgX"
     "data:imported" rfl rfl rfl⟩

end LivingPortrait
